import Mathlib

/-!
Verification of the Flamenco Blender add-on manager-info layer:
the typed codec (`_to_json` / `_from_json`), the disk/memory cache
(`load`, `load_into_cache`, `load_cached`, `save`), the remote fetcher
(`fetch`), the refresh/reconciliation operation (`ping_manager`) and the
memoized API-client factory (`flamenco_api_client`).

The Python modules `manager_info.py`, `comms.py` and `worker_tags.py` are
embedded shallowly: the process-global mutable state (the cached snapshot,
the cache file, the API client singleton) is passed explicitly, exceptions
become `Except` values, and the four remote endpoint calls become an
explicit environment of call outcomes.
-/

namespace Flamenco

/-! ### Data model

Modelled from the spec: the four OpenAPI model classes (`FlamencoVersion`,
`SharedStorageLocation`, `AvailableJobTypes`/`JobType`, `WorkerTagList`/
`WorkerTag`) are generated client code that is not part of the sources
here; their fields follow the data-model section of the spec
(`version` as name/version strings, shared storage as an opaque location
descriptor, job types identified by `name`, worker tags identified by `id`
with an optional `description`).
-/

structure FlamencoVersion where
  name : String
  version : String
  deriving DecidableEq, Repr

structure SharedStorageLocation where
  location : String
  deriving DecidableEq, Repr

structure JobType where
  name : String
  deriving DecidableEq, Repr

structure AvailableJobTypes where
  job_types : List JobType
  deriving DecidableEq, Repr

structure WorkerTag where
  id : String
  name : String
  description : Option String
  deriving DecidableEq, Repr

structure WorkerTagList where
  tags : List WorkerTag
  deriving DecidableEq, Repr

/-- The `ManagerInfo` dataclass of `manager_info.py`: the four required
fields, in declaration order. -/
structure ManagerInfo where
  flamenco_version : FlamencoVersion
  shared_storage : SharedStorageLocation
  job_types : AvailableJobTypes
  worker_tags : WorkerTagList
  deriving DecidableEq, Repr

/-! ### JSON values

A JSON value, as produced by `json.loads` / consumed by `json.dumps`.
Only the shapes the codec can emit or inspect are needed: strings,
arrays and objects (an object is an association list of key/value pairs).
-/

inductive Json where
  | str (s : String) : Json
  | arr (items : List Json) : Json
  | obj (fields : List (String × Json)) : Json

/-- Key lookup in a JSON object, i.e. Python `dict` access `d[key]`
returning `None`-like absence for a missing key. -/
def lookupKey : List (String × Json) → String → Option Json
  | [], _ => none
  | (k, v) :: rest, key => if k = key then some v else lookupKey rest key

/-! ### Encoding (`Encoder` / `_to_json`)

Modelled from the spec: `OpenApiModel.to_dict` for each model class is
generated client code not present in the sources; per the spec it reflects
the schema-declared fields of the object into a plain mapping, omitting
unset optional fields.  The `ManagerInfo` case of `Encoder.default` (a
field-name-to-value mapping over `dataclasses.fields`) is from
`manager_info.py`.
-/

def FlamencoVersion.to_dict (v : FlamencoVersion) : Json :=
  .obj [("name", .str v.name), ("version", .str v.version)]

def SharedStorageLocation.to_dict (s : SharedStorageLocation) : Json :=
  .obj [("location", .str s.location)]

def JobType.to_dict (t : JobType) : Json :=
  .obj [("name", .str t.name)]

def AvailableJobTypes.to_dict (a : AvailableJobTypes) : Json :=
  .obj [("job_types", .arr (a.job_types.map JobType.to_dict))]

def WorkerTag.to_dict (t : WorkerTag) : Json :=
  .obj ([("id", .str t.id), ("name", .str t.name)] ++
    (match t.description with
     | none => []
     | some d => [("description", .str d)]))

def WorkerTagList.to_dict (l : WorkerTagList) : Json :=
  .obj [("tags", .arr (l.tags.map WorkerTag.to_dict))]

/-- `_to_json` of `manager_info.py`, at the JSON-value level: the
`Encoder` turns the `ManagerInfo` dataclass into an object keyed by its
field names, each field serialized through its model's `to_dict`. -/
def to_json (info : ManagerInfo) : Json :=
  .obj [("flamenco_version", info.flamenco_version.to_dict),
        ("shared_storage", info.shared_storage.to_dict),
        ("job_types", info.job_types.to_dict),
        ("worker_tags", info.worker_tags.to_dict)]

/-! ### Decoding (`_from_json`)

Modelled from the spec: `validate_and_convert_types` is generated client
code not present in the sources; per the spec it validates a JSON mapping
against the declared schema type (required-field presence, type checks)
and fails if validation fails for any field.  Its failure is a distinct
validation exception, not a `json.JSONDecodeError` (the JSON text was
already parsed successfully at that point).
-/

def validateFlamencoVersion (j : Json) : Except String FlamencoVersion :=
  match j with
  | .obj fields =>
    match lookupKey fields "name", lookupKey fields "version" with
    | some (.str n), some (.str v) => .ok { name := n, version := v }
    | _, _ => .error "invalid FlamencoVersion"
  | _ => .error "FlamencoVersion: not an object"

def validateSharedStorage (j : Json) : Except String SharedStorageLocation :=
  match j with
  | .obj fields =>
    match lookupKey fields "location" with
    | some (.str l) => .ok { location := l }
    | _ => .error "invalid SharedStorageLocation"
  | _ => .error "SharedStorageLocation: not an object"

def validateJobType (j : Json) : Except String JobType :=
  match j with
  | .obj fields =>
    match lookupKey fields "name" with
    | some (.str n) => .ok { name := n }
    | _ => .error "invalid JobType"
  | _ => .error "JobType: not an object"

def validateJobTypeItems : List Json → Except String (List JobType)
  | [] => .ok []
  | j :: rest =>
    match validateJobType j with
    | .error e => .error e
    | .ok t =>
      match validateJobTypeItems rest with
      | .error e => .error e
      | .ok ts => .ok (t :: ts)

def validateAvailableJobTypes (j : Json) : Except String AvailableJobTypes :=
  match j with
  | .obj fields =>
    match lookupKey fields "job_types" with
    | some (.arr items) =>
      match validateJobTypeItems items with
      | .error e => .error e
      | .ok ts => .ok { job_types := ts }
    | _ => .error "invalid AvailableJobTypes"
  | _ => .error "AvailableJobTypes: not an object"

def validateWorkerTag (j : Json) : Except String WorkerTag :=
  match j with
  | .obj fields =>
    match lookupKey fields "id", lookupKey fields "name" with
    | some (.str i), some (.str n) =>
      match lookupKey fields "description" with
      | none => .ok { id := i, name := n, description := none }
      | some (.str d) => .ok { id := i, name := n, description := some d }
      | some _ => .error "invalid WorkerTag description"
    | _, _ => .error "invalid WorkerTag"
  | _ => .error "WorkerTag: not an object"

def validateWorkerTagItems : List Json → Except String (List WorkerTag)
  | [] => .ok []
  | j :: rest =>
    match validateWorkerTag j with
    | .error e => .error e
    | .ok t =>
      match validateWorkerTagItems rest with
      | .error e => .error e
      | .ok ts => .ok (t :: ts)

def validateWorkerTagList (j : Json) : Except String WorkerTagList :=
  match j with
  | .obj fields =>
    match lookupKey fields "tags" with
    | some (.arr items) =>
      match validateWorkerTagItems items with
      | .error e => .error e
      | .ok ts => .ok { tags := ts }
    | _ => .error "invalid WorkerTagList"
  | _ => .error "WorkerTagList: not an object"

/-- Failure modes of `_from_json`.  A missing top-level key surfaces as a
Python `KeyError` from `json_dict[name]`; a schema-validation failure
surfaces as the API client's validation exception (`apiTypeError`); key
access on a non-dict document raises `TypeError`.  None of these is a
`json.JSONDecodeError`. -/
inductive DecodeFailure where
  | keyError (key : String)
  | apiTypeError (msg : String)
  | typeError (msg : String)
  deriving DecidableEq, Repr

/-- Python `json_dict[name]`: raises `KeyError` when the key is absent. -/
def getItem (fields : List (String × Json)) (key : String) : Except DecodeFailure Json :=
  match lookupKey fields key with
  | some v => .ok v
  | none => .error (.keyError key)

/-- `_from_json` of `manager_info.py`: for each of the four names of
`ManagerInfo.type_info()`, in order, look the name up in the parsed JSON
dict and validate-and-convert the value to the registered model type;
construct the `ManagerInfo` from the four results. -/
def from_json (j : Json) : Except DecodeFailure ManagerInfo :=
  match j with
  | .obj fields =>
    match getItem fields "flamenco_version" with
    | .error e => .error e
    | .ok vj =>
      match validateFlamencoVersion vj with
      | .error m => .error (.apiTypeError m)
      | .ok v =>
        match getItem fields "shared_storage" with
        | .error e => .error e
        | .ok sj =>
          match validateSharedStorage sj with
          | .error m => .error (.apiTypeError m)
          | .ok s =>
            match getItem fields "job_types" with
            | .error e => .error e
            | .ok jj =>
              match validateAvailableJobTypes jj with
              | .error m => .error (.apiTypeError m)
              | .ok jt =>
                match getItem fields "worker_tags" with
                | .error e => .error e
                | .ok wj =>
                  match validateWorkerTagList wj with
                  | .error m => .error (.apiTypeError m)
                  | .ok wt =>
                    .ok { flamenco_version := v, shared_storage := s,
                          job_types := jt, worker_tags := wt }
  | _ => .error (.typeError "JSON document is not an object")

/-! ### Disk cache and in-memory cache (`load`, `save`, `load_into_cache`,
`load_cached`)

The cache file is modelled as `Option RawContent`: `none` is a missing
file; `unreadable` a file whose read raises `OSError`; `invalid` a file
whose text `json.loads` rejects; `valid j` a file whose text parses to
the JSON value `j`.
-/

inductive RawContent where
  | unreadable : RawContent
  | invalid : RawContent
  | valid (j : Json) : RawContent

/-- The exceptions `load()` can raise: `FileNotFoundError` for a missing
file, `LoadError` for an unreadable file or JSON syntax error (the only
two conversions `load` performs), and the pass-through `_from_json`
failures (`KeyError`, validation error, `TypeError`), which `load` does
not catch. -/
inductive LoadFailure where
  | fileNotFound : LoadFailure
  | loadError (msg : String) : LoadFailure
  | keyError (key : String) : LoadFailure
  | apiTypeError (msg : String) : LoadFailure
  | typeError (msg : String) : LoadFailure
  deriving DecidableEq, Repr

/-- Process-wide mutable state of `manager_info.py`: the module global
`_cached_manager_info` and the cache file on disk. -/
structure CacheState where
  cached : Option ManagerInfo
  disk : Option RawContent

/-- `load()` of `manager_info.py`: `FileNotFoundError` if the file does
not exist; `LoadError` if reading raises `OSError` or the text is not
valid JSON (`json.JSONDecodeError`); otherwise the result of `_from_json`,
whose own failures propagate unconverted. -/
def load (disk : Option RawContent) : Except LoadFailure ManagerInfo :=
  match disk with
  | none => .error .fileNotFound
  | some .unreadable => .error (.loadError "Could not read the cache file")
  | some .invalid => .error (.loadError "Could not decode JSON in the cache file")
  | some (.valid j) =>
    match from_json j with
    | .ok info => .ok info
    | .error (.keyError k) => .error (.keyError k)
    | .error (.apiTypeError m) => .error (.apiTypeError m)
    | .error (.typeError m) => .error (.typeError m)

/-- `save()` of `manager_info.py`: write `_to_json info` to the cache
file (the written text always parses back to `to_json info`). -/
def save (info : ManagerInfo) (st : CacheState) : CacheState :=
  { st with disk := some (.valid (to_json info)) }

/-- `load_into_cache()` of `manager_info.py`: set `_cached_manager_info`
to `None`, then try `load()`; absorb `FileNotFoundError` and `LoadError`
by returning `None`; any other exception propagates (first component
`.error`).  The new state is returned alongside. -/
def load_into_cache (st : CacheState) :
    Except LoadFailure (Option ManagerInfo) × CacheState :=
  let st1 : CacheState := { st with cached := none }
  match load st.disk with
  | .ok info => (.ok (some info), { st1 with cached := some info })
  | .error .fileNotFound => (.ok none, st1)
  | .error (.loadError _) => (.ok none, st1)
  | .error e => (.error e, st1)

/-- `load_cached()` of `manager_info.py`: return the in-memory snapshot
if present, else delegate to `load_into_cache()`. -/
def load_cached (st : CacheState) :
    Except LoadFailure (Option ManagerInfo) × CacheState :=
  match st.cached with
  | some info => (.ok (some info), st)
  | none => load_into_cache st

/-! ### Remote fetcher (`fetch`)

The four remote endpoint calls are modelled as an environment assigning
each call an outcome: a returned value, or one of the three exception
classes `fetch` handles (`ApiException`, `MaxRetryError`, `HTTPError`).
`MaxRetryError` is matched by its own handler before the generic
`HTTPError` handler, so the three failure classes are disjoint here.
-/

inductive CallFailure where
  | apiException (detail : String) : CallFailure
  | maxRetryError : CallFailure
  | httpError (detail : String) : CallFailure
  deriving DecidableEq, Repr

inductive CallOutcome (α : Type) where
  | ok (value : α) : CallOutcome α
  | fail (f : CallFailure) : CallOutcome α

def CallOutcome.isOk {α : Type} : CallOutcome α → Bool
  | .ok _ => true
  | .fail _ => false

/-- The `FetchError` message `fetch` builds for each handled exception:
`ApiException` and `HTTPError` include the underlying detail,
`MaxRetryError` deliberately does not. -/
def CallFailure.fetchErrorMessage : CallFailure → String
  | .apiException d => "Manager cannot be reached: " ++ d
  | .maxRetryError => "Manager cannot be reached"
  | .httpError d => "Manager cannot be reached: " ++ d

/-- Outcomes of the four remote calls `fetch` performs, in call order:
`meta_api.get_version()`, `meta_api.get_shared_storage(...)`,
`jobs_api.get_job_types()`, `worker_mgt_api.fetch_worker_tags()`. -/
structure FetchEnv where
  get_version : CallOutcome FlamencoVersion
  get_shared_storage : CallOutcome SharedStorageLocation
  get_job_types : CallOutcome AvailableJobTypes
  fetch_worker_tags : CallOutcome WorkerTagList

def FetchEnv.allOk (env : FetchEnv) : Bool :=
  env.get_version.isOk && env.get_shared_storage.isOk &&
    env.get_job_types.isOk && env.fetch_worker_tags.isOk

/-- The `try` body of `fetch`: the four calls in order; the first
exception aborts the sequence. -/
def fetchBody (env : FetchEnv) : Except CallFailure ManagerInfo :=
  match env.get_version with
  | .fail f => .error f
  | .ok v =>
    match env.get_shared_storage with
    | .fail f => .error f
    | .ok s =>
      match env.get_job_types with
      | .fail f => .error f
      | .ok jt =>
        match env.fetch_worker_tags with
        | .fail f => .error f
        | .ok wt =>
          .ok { flamenco_version := v, shared_storage := s,
                job_types := jt, worker_tags := wt }

/-- `fetch()` of `manager_info.py`: run the four calls; on the first
exception raise `FetchError` with the handler-specific message, leaving
the state untouched; on success assign the new `ManagerInfo` to the
module global `_cached_manager_info` and return it.  The disk file is
never touched by `fetch`. -/
def fetch (env : FetchEnv) (st : CacheState) :
    Except String ManagerInfo × CacheState :=
  match fetchBody env with
  | .error f => (.error f.fetchErrorMessage, st)
  | .ok info => (.ok info, { st with cached := some info })

/-! ### Refresh and selection reconciliation (`ping_manager`)

The scene state holds the two dynamic enum selections as optional
identifiers (`none` is the unset state reached by deleting the
underlying ID property); `getattr(scene, ..., "")` yields `""` when
unset.  Assigning an identifier that is not among the current enum items
raises `TypeError`, which `ping_manager` handles by deleting the property
and recording a warning.
-/

structure Scene where
  flamenco_job_type : Option String
  flamenco_worker_tag : Option String
  deriving DecidableEq, Repr

/-- A single-quote character, as produced by Python `repr` around a
string. -/
def squote : String := String.singleton (Char.ofNat 39)

/-- Python `repr` of the identifier strings involved here (no embedded
quotes or escapes): the string wrapped in single quotes. -/
def pyRepr (s : String) : String := squote ++ s ++ squote

/-- Modelled from the spec: `job_types.py` (the job-type enum property)
is not among the sources; per the spec the candidate identifier set for
the job-type selection is the set of job-type names of the new
snapshot. -/
def jobTypeEnumIds (info : ManagerInfo) : List String :=
  info.job_types.job_types.map JobType.name

/-- The worker-tag enum items from `worker_tags.py` when a manager
snapshot is cached (which holds right after a successful fetch): the
sentinel item `"-"` (All) followed by one item per worker tag, identified
by the tag id. -/
def workerTagEnumIds (info : ManagerInfo) : List String :=
  "-" :: info.worker_tags.tags.map WorkerTag.id

/-- `ping_manager()` of `comms.py`: capture the old selections, fetch
(on `FetchError` return the error text with level ERROR and do nothing
else), save the snapshot to disk, build the INFO report, then reconcile
the job-type selection and the worker-tag selection in that order —
restore an old identifier still among the enum items, otherwise unset the
selection and replace report and level with the warning.  Returns
`((report, level), scene, state)`. -/
def ping_manager (env : FetchEnv) (scene : Scene) (st : CacheState) :
    (String × String) × Scene × CacheState :=
  let old_job_type_name := scene.flamenco_job_type.getD ""
  let old_tag_name := scene.flamenco_worker_tag.getD ""
  match fetch env st with
  | (.error msg, st1) => ((msg, "ERROR"), scene, st1)
  | (.ok info, st1) =>
    let st2 := save info st1
    let report0 := info.flamenco_version.name ++ " version " ++
      info.flamenco_version.version ++ " found"
    let step1 : Scene × String × String :=
      if old_job_type_name = "" then (scene, report0, "INFO")
      else if (jobTypeEnumIds info).contains old_job_type_name then
        ({ scene with flamenco_job_type := some old_job_type_name },
         report0, "INFO")
      else
        ({ scene with flamenco_job_type := none },
         "Job type " ++ pyRepr old_job_type_name ++
           " no longer available, choose another one",
         "WARNING")
    match step1 with
    | (scene1, report1, level1) =>
      let step2 : Scene × String × String :=
        if old_tag_name = "" then (scene1, report1, level1)
        else if (workerTagEnumIds info).contains old_tag_name then
          ({ scene1 with flamenco_worker_tag := some old_tag_name },
           report1, level1)
        else
          ({ scene1 with flamenco_worker_tag := none },
           "Tag " ++ pyRepr old_tag_name ++
             " no longer available, choose another one",
           "WARNING")
      match step2 with
      | (scene2, report2, level2) => ((report2, level2), scene2, st2)

/-! ### API client factory (`flamenco_api_client`, `discard_flamenco_data`) -/

/-- The constructed OpenAPI client, identified by the host it was
configured with. -/
structure ApiClient where
  host : String
  deriving DecidableEq, Repr

/-- Python `manager_url.rstrip("/")`: drop all trailing slash
characters. -/
def rstripSlash (s : String) : String :=
  String.mk ((s.toList.reverse.dropWhile (fun c => c = Char.ofNat 47)).reverse)

/-- `flamenco_api_client()` of `comms.py`: if the module global
`_flamenco_client` is set, return it unchanged (the argument is ignored);
otherwise build a client configured for `manager_url.rstrip("/")`, store
it in the global and return it. -/
def flamenco_api_client (manager_url : String) (client : Option ApiClient) :
    ApiClient × Option ApiClient :=
  match client with
  | some c => (c, some c)
  | none =>
    let c : ApiClient := { host := rstripSlash manager_url }
    (c, some c)

/-- `discard_flamenco_data()` of `comms.py`: close and drop the client
singleton (no-op when absent); the global is `None` afterwards. -/
def discard_flamenco_data (_client : Option ApiClient) : Option ApiClient :=
  none

/-! ### Codec round-trip lemmas -/

lemma validateFlamencoVersion_to_dict (v : FlamencoVersion) :
    validateFlamencoVersion v.to_dict = .ok v := rfl

lemma validateSharedStorage_to_dict (s : SharedStorageLocation) :
    validateSharedStorage s.to_dict = .ok s := rfl

lemma validateJobType_to_dict (t : JobType) :
    validateJobType t.to_dict = .ok t := rfl

lemma validateWorkerTag_to_dict (t : WorkerTag) :
    validateWorkerTag t.to_dict = .ok t := by
  obtain ⟨i, n, d⟩ := t
  cases d <;> rfl

lemma validateJobTypeItems_map (l : List JobType) :
    validateJobTypeItems (l.map JobType.to_dict) = .ok l := by
  induction l with
  | nil => rfl
  | cons t rest ih =>
    simp [validateJobTypeItems, validateJobType_to_dict, ih]

lemma validateWorkerTagItems_map (l : List WorkerTag) :
    validateWorkerTagItems (l.map WorkerTag.to_dict) = .ok l := by
  induction l with
  | nil => rfl
  | cons t rest ih =>
    simp [validateWorkerTagItems, validateWorkerTag_to_dict, ih]

lemma validateAvailableJobTypes_to_dict (a : AvailableJobTypes) :
    validateAvailableJobTypes a.to_dict = .ok a := by
  obtain ⟨jts⟩ := a
  simp [AvailableJobTypes.to_dict, validateAvailableJobTypes, lookupKey,
    validateJobTypeItems_map]

lemma validateWorkerTagList_to_dict (l : WorkerTagList) :
    validateWorkerTagList l.to_dict = .ok l := by
  obtain ⟨tags⟩ := l
  simp [WorkerTagList.to_dict, validateWorkerTagList, lookupKey,
    validateWorkerTagItems_map]

/-- C1: for every `ManagerInfo` value, decoding the encoded JSON document
yields the original value back (`_from_json(_to_json(s)) == s`); in
particular encoding and decoding both succeed on every such value. -/
theorem from_json_to_json_roundtrip (info : ManagerInfo) :
    from_json (to_json info) = .ok info := by
  obtain ⟨v, s, jt, wt⟩ := info
  simp [to_json, from_json, getItem, lookupKey,
    validateFlamencoVersion_to_dict, validateSharedStorage_to_dict,
    validateAvailableJobTypes_to_dict, validateWorkerTagList_to_dict]

/-! ### Concrete sample values, used by witnesses and counterexamples -/

def sampleVersion : FlamencoVersion := { name := "Flamenco", version := "3.5" }

def sampleStorage : SharedStorageLocation := { location := "/shared/flamenco" }

def sampleJobTypes : AvailableJobTypes :=
  { job_types := [{ name := "simple-blender-render" }, { name := "echo-sleep-test" }] }

def sampleTags : WorkerTagList :=
  { tags := [{ id := "gpu", name := "GPU", description := some "has a GPU" },
             { id := "cpu", name := "CPU", description := none }] }

def sampleInfo : ManagerInfo :=
  { flamenco_version := sampleVersion, shared_storage := sampleStorage,
    job_types := sampleJobTypes, worker_tags := sampleTags }

/-- An environment in which all four remote calls succeed. -/
def envAllOk : FetchEnv :=
  { get_version := .ok sampleVersion, get_shared_storage := .ok sampleStorage,
    get_job_types := .ok sampleJobTypes, fetch_worker_tags := .ok sampleTags }

/-- An environment whose first call fails with `MaxRetryError`. -/
def envVersionDown : FetchEnv :=
  { envAllOk with get_version := .fail .maxRetryError }

/-- An environment whose third call fails with an `ApiException`. -/
def envJobTypesDown : FetchEnv :=
  { envAllOk with get_job_types := .fail (.apiException "boom") }

/-- An empty initial cache state: nothing in memory, no cache file. -/
def st0 : CacheState := { cached := none, disk := none }

/-- A cache state with a snapshot in memory and no cache file. -/
def stWarm : CacheState := { cached := some sampleInfo, disk := none }

def scene0 : Scene := { flamenco_job_type := none, flamenco_worker_tag := none }

/-! ### Remote fetcher theorems -/

/-- C2: `fetch` returns a `ManagerInfo` only if all four remote calls
succeed; if any one of them fails, `fetch` raises a `FetchError` (the
message of the first failing call), no snapshot is returned, and the
state — both the in-memory cached snapshot and the disk cache — is
exactly as it was before the call. -/
theorem fetch_requires_all_calls (env : FetchEnv) (st : CacheState)
    (h : env.allOk = false) :
    ∃ f : CallFailure, fetch env st = (.error f.fetchErrorMessage, st) := by
  obtain ⟨o1, o2, o3, o4⟩ := env
  cases o1 <;> cases o2 <;> cases o3 <;> cases o4 <;>
    first
    | exact ⟨_, rfl⟩
    | simp [FetchEnv.allOk, CallOutcome.isOk] at h

theorem fetch_requires_all_calls_witness :
    envJobTypesDown.allOk = false ∧
    ∃ f : CallFailure, fetch envJobTypesDown stWarm = (.error f.fetchErrorMessage, stWarm) :=
  ⟨rfl, fetch_requires_all_calls envJobTypesDown stWarm rfl⟩

/-- C7: when a remote call fails with the transport-level max-retries
error, `fetch` raises `FetchError` with message exactly
`"Manager cannot be reached"` (no underlying detail), and `ping_manager`
returns that text as the report with severity ERROR, performing no
selection reconciliation (scene and cache state are unchanged); any other
transport/HTTP-level failure (`ApiException`, `HTTPError`) produces a
`FetchError` message that includes the underlying detail. -/
theorem fetch_error_message_classification (env : FetchEnv) (scene : Scene)
    (st : CacheState) (f : CallFailure) (hf : fetchBody env = .error f) :
    (f = .maxRetryError →
      fetch env st = (.error "Manager cannot be reached", st) ∧
      ping_manager env scene st = (("Manager cannot be reached", "ERROR"), scene, st)) ∧
    (∀ d, f = .apiException d →
      fetch env st = (.error ("Manager cannot be reached: " ++ d), st) ∧
      ping_manager env scene st =
        (("Manager cannot be reached: " ++ d, "ERROR"), scene, st)) ∧
    (∀ d, f = .httpError d →
      fetch env st = (.error ("Manager cannot be reached: " ++ d), st) ∧
      ping_manager env scene st =
        (("Manager cannot be reached: " ++ d, "ERROR"), scene, st)) := by
  refine ⟨?_, ?_, ?_⟩
  · rintro rfl
    constructor <;> simp [ping_manager, fetch, hf, CallFailure.fetchErrorMessage]
  · rintro d rfl
    constructor <;> simp [ping_manager, fetch, hf, CallFailure.fetchErrorMessage]
  · rintro d rfl
    constructor <;> simp [ping_manager, fetch, hf, CallFailure.fetchErrorMessage]

theorem fetch_error_message_classification_witness :
    (fetch envVersionDown st0 = (.error "Manager cannot be reached", st0) ∧
     ping_manager envVersionDown scene0 st0 =
       (("Manager cannot be reached", "ERROR"), scene0, st0)) ∧
    (fetch envJobTypesDown st0 = (.error ("Manager cannot be reached: " ++ "boom"), st0) ∧
     ping_manager envJobTypesDown scene0 st0 =
       (("Manager cannot be reached: " ++ "boom", "ERROR"), scene0, st0)) :=
  ⟨(fetch_error_message_classification envVersionDown scene0 st0 .maxRetryError rfl).1 rfl,
   (fetch_error_message_classification envJobTypesDown scene0 st0
      (.apiException "boom") rfl).2.1 "boom" rfl⟩

/-- C4 counterexample: the claim says a successful `fetch` leaves the
process-wide cached snapshot unchanged, but `fetch` assigns the new
`ManagerInfo` to the module global `_cached_manager_info` on success:
starting from an empty cache, the cached snapshot after a successful
fetch differs from the one before. -/
theorem fetch_updates_memory_cache_cex :
    st0.cached = none ∧ (fetch envAllOk st0).2.cached = some sampleInfo := by
  constructor <;> rfl

/-- C4 (amended): on success, `fetch` does not write the disk cache — it
returns the new `ManagerInfo` for the caller to persist — but it does
replace the process-wide in-memory cached snapshot with that new value. -/
theorem fetch_success_cache_effect (env : FetchEnv) (st : CacheState)
    (info : ManagerInfo) (h : fetchBody env = .ok info) :
    fetch env st = (.ok info, { cached := some info, disk := st.disk }) := by
  simp [fetch, h]

theorem fetch_success_cache_effect_witness :
    fetch envAllOk st0 = (.ok sampleInfo, { cached := some sampleInfo, disk := st0.disk }) :=
  fetch_success_cache_effect envAllOk st0 sampleInfo rfl

/-! ### Selection reconciliation theorems -/

/-- C3: after a refresh whose fetch succeeds with snapshot `info`:
if each old selection id (job-type name, worker-tag id) is empty or still
among the corresponding enum candidates, every non-empty old id is
restored and the report is the INFO `"<name> version <version> found"`
message; a non-empty job-type id absent from the candidates is cleared to
unset and (when the tag selection does not also warn) the returned report
is the job-type warning naming that id, with severity WARNING; a
non-empty worker-tag id absent from the candidates is cleared to unset
and the returned report is the tag warning naming that id, with severity
WARNING. -/
theorem ping_manager_reconciliation (env : FetchEnv) (st : CacheState)
    (info : ManagerInfo) (hfetch : fetchBody env = .ok info) :
    (∀ jobOpt tagOpt : Option String,
      (jobOpt.getD "" = "" ∨ (jobTypeEnumIds info).contains (jobOpt.getD "") = true) →
      (tagOpt.getD "" = "" ∨ (workerTagEnumIds info).contains (tagOpt.getD "") = true) →
      (ping_manager env ⟨jobOpt, tagOpt⟩ st).1 =
        (info.flamenco_version.name ++ " version " ++
          info.flamenco_version.version ++ " found", "INFO") ∧
      (jobOpt.getD "" ≠ "" →
        (ping_manager env ⟨jobOpt, tagOpt⟩ st).2.1.flamenco_job_type =
          some (jobOpt.getD "")) ∧
      (tagOpt.getD "" ≠ "" →
        (ping_manager env ⟨jobOpt, tagOpt⟩ st).2.1.flamenco_worker_tag =
          some (tagOpt.getD ""))) ∧
    (∀ (oj : String) (tagOpt : Option String), oj ≠ "" →
      (jobTypeEnumIds info).contains oj = false →
      (ping_manager env ⟨some oj, tagOpt⟩ st).2.1.flamenco_job_type = none ∧
      ((tagOpt.getD "" = "" ∨ (workerTagEnumIds info).contains (tagOpt.getD "") = true) →
        (ping_manager env ⟨some oj, tagOpt⟩ st).1 =
          ("Job type " ++ pyRepr oj ++ " no longer available, choose another one",
           "WARNING"))) ∧
    (∀ (jobOpt : Option String) (ot : String), ot ≠ "" →
      (workerTagEnumIds info).contains ot = false →
      (ping_manager env ⟨jobOpt, some ot⟩ st).2.1.flamenco_worker_tag = none ∧
      (ping_manager env ⟨jobOpt, some ot⟩ st).1 =
        ("Tag " ++ pyRepr ot ++ " no longer available, choose another one",
         "WARNING")) := by
  refine ⟨?_, ?_, ?_⟩
  · rintro jobOpt tagOpt hj ht
    by_cases hje : jobOpt.getD "" = ""
    · by_cases hte : tagOpt.getD "" = ""
      · simp [ping_manager, fetch, hfetch, save, hje, hte]
      · have ht2 : tagOpt.getD "" ∈ workerTagEnumIds info := by
          simpa using ht.resolve_left hte
        simp [ping_manager, fetch, hfetch, save, hje, hte, ht2]
    · have hj2 : jobOpt.getD "" ∈ jobTypeEnumIds info := by
        simpa using hj.resolve_left hje
      by_cases hte : tagOpt.getD "" = ""
      · simp [ping_manager, fetch, hfetch, save, hje, hte, hj2]
      · have ht2 : tagOpt.getD "" ∈ workerTagEnumIds info := by
          simpa using ht.resolve_left hte
        simp [ping_manager, fetch, hfetch, save, hje, hte, hj2, ht2]
  · rintro oj tagOpt hoj hcj
    have hcj2 : oj ∉ jobTypeEnumIds info := by simpa using hcj
    constructor
    · by_cases hte : tagOpt.getD "" = ""
      · simp [ping_manager, fetch, hfetch, save, hoj, hcj2, hte]
      · by_cases hct : tagOpt.getD "" ∈ workerTagEnumIds info <;>
          simp [ping_manager, fetch, hfetch, save, hoj, hcj2, hte, hct]
    · rintro ht
      by_cases hte : tagOpt.getD "" = ""
      · simp [ping_manager, fetch, hfetch, save, hoj, hcj2, hte]
      · have ht2 : tagOpt.getD "" ∈ workerTagEnumIds info := by
          simpa using ht.resolve_left hte
        simp [ping_manager, fetch, hfetch, save, hoj, hcj2, hte, ht2]
  · rintro jobOpt ot hot hct
    have hct2 : ot ∉ workerTagEnumIds info := by simpa using hct
    by_cases hje : jobOpt.getD "" = ""
    · simp [ping_manager, fetch, hfetch, save, hot, hct2, hje]
    · by_cases hcj : jobOpt.getD "" ∈ jobTypeEnumIds info <;>
        simp [ping_manager, fetch, hfetch, save, hot, hct2, hje, hcj]

theorem ping_manager_reconciliation_witness :
    (ping_manager envAllOk
        { flamenco_job_type := some "simple-blender-render",
          flamenco_worker_tag := some "gpu" } st0).1 =
      ("Flamenco version 3.5 found", "INFO") ∧
    (ping_manager envAllOk
        { flamenco_job_type := some "simple-blender-render",
          flamenco_worker_tag := some "gpu" } st0).2.1.flamenco_job_type =
      some "simple-blender-render" ∧
    (ping_manager envAllOk
        { flamenco_job_type := none, flamenco_worker_tag := some "cpu-only" }
        st0).2.1.flamenco_worker_tag = none ∧
    (ping_manager envAllOk
        { flamenco_job_type := none, flamenco_worker_tag := some "cpu-only" }
        st0).1 =
      ("Tag " ++ pyRepr "cpu-only" ++ " no longer available, choose another one",
       "WARNING") := by
  have h := ping_manager_reconciliation envAllOk st0 sampleInfo rfl
  have hA := h.1 (some "simple-blender-render") (some "gpu")
    (Or.inr (by decide)) (Or.inr (by decide))
  have hC := h.2.2 none "cpu-only" (by decide) (by decide)
  exact ⟨hA.1, hA.2.1 (by decide), hC.1, hC.2⟩

/-- C8: if the fetch succeeds and both the job-type selection and the
worker-tag selection need clearing in the same refresh, the report
returned by `ping_manager` is the worker-tag warning — produced second —
with severity WARNING, and the job-type warning is overwritten; both
selections end up unset, the snapshot is cached in memory and written to
disk. -/
theorem ping_manager_last_warning_wins (env : FetchEnv) (st : CacheState)
    (info : ManagerInfo) (oj ot : String) (hfetch : fetchBody env = .ok info)
    (hoj : oj ≠ "") (hot : ot ≠ "")
    (hcj : (jobTypeEnumIds info).contains oj = false)
    (hct : (workerTagEnumIds info).contains ot = false) :
    ping_manager env ⟨some oj, some ot⟩ st =
      (("Tag " ++ pyRepr ot ++ " no longer available, choose another one",
        "WARNING"),
       { flamenco_job_type := none, flamenco_worker_tag := none },
       { cached := some info, disk := some (.valid (to_json info)) }) := by
  have hcj2 : oj ∉ jobTypeEnumIds info := by simpa using hcj
  have hct2 : ot ∉ workerTagEnumIds info := by simpa using hct
  simp [ping_manager, fetch, hfetch, save, hoj, hot, hcj2, hct2]

theorem ping_manager_last_warning_wins_witness :
    ping_manager envAllOk
        { flamenco_job_type := some "gone-job", flamenco_worker_tag := some "gone-tag" }
        st0 =
      (("Tag " ++ pyRepr "gone-tag" ++ " no longer available, choose another one",
        "WARNING"),
       { flamenco_job_type := none, flamenco_worker_tag := none },
       { cached := some sampleInfo, disk := some (.valid (to_json sampleInfo)) }) :=
  ping_manager_last_warning_wins envAllOk st0 sampleInfo "gone-job" "gone-tag"
    rfl (by decide) (by decide) (by decide) (by decide)

/-! ### Cache-layer theorems -/

/-- Discriminator for the `LoadError` exception class among the failure
modes of `load`. -/
def isLoadErrorResult : Except LoadFailure ManagerInfo → Bool
  | .error (.loadError _) => true
  | _ => false

/-- A successful `_from_json` requires each of the four registered
top-level keys to be present in the JSON dict. -/
lemma from_json_ok_keys (fields : List (String × Json)) (info : ManagerInfo)
    (h : from_json (.obj fields) = .ok info) :
    (lookupKey fields "flamenco_version").isSome ∧
    (lookupKey fields "shared_storage").isSome ∧
    (lookupKey fields "job_types").isSome ∧
    (lookupKey fields "worker_tags").isSome := by
  cases hv : lookupKey fields "flamenco_version" with
  | none => simp [from_json, getItem, hv] at h
  | some vj =>
    cases hvv : validateFlamencoVersion vj with
    | error m => simp [from_json, getItem, hv, hvv] at h
    | ok v =>
      cases hs : lookupKey fields "shared_storage" with
      | none => simp [from_json, getItem, hv, hvv, hs] at h
      | some sj =>
        cases hsv : validateSharedStorage sj with
        | error m => simp [from_json, getItem, hv, hvv, hs, hsv] at h
        | ok s =>
          cases hj : lookupKey fields "job_types" with
          | none => simp [from_json, getItem, hv, hvv, hs, hsv, hj] at h
          | some jj =>
            cases hjv : validateAvailableJobTypes jj with
            | error m => simp [from_json, getItem, hv, hvv, hs, hsv, hj, hjv] at h
            | ok jt =>
              cases hw : lookupKey fields "worker_tags" with
              | none => simp [from_json, getItem, hv, hvv, hs, hsv, hj, hjv, hw] at h
              | some wj => simp [hv, hs, hj, hw]

/-- C5 counterexample: a syntactically valid JSON object missing the four
required keys makes `load` fail with an uncaught `KeyError`, not with the
`LoadError` kind the claim requires. -/
theorem load_missing_key_not_loadError_cex :
    load (some (.valid (.obj []))) = .error (.keyError "flamenco_version") ∧
    isLoadErrorResult (load (some (.valid (.obj [])))) = false :=
  ⟨rfl, rfl⟩

/-- C5 (amended): for every JSON input that is syntactically valid but is
missing one of the four required top-level keys, decoding via `load`
fails — with a pass-through exception from `_from_json` (a `KeyError`,
or a validation error raised on an earlier field), never with `LoadError`
or `FileNotFoundError` — and decoding is all-or-nothing: no `ManagerInfo`
is produced. -/
theorem load_missing_key_fails (fields : List (String × Json)) (name : String)
    (hmem : name ∈ ["flamenco_version", "shared_storage", "job_types", "worker_tags"])
    (hmiss : lookupKey fields name = none) :
    ∃ e, load (some (.valid (.obj fields))) = .error e ∧
      (∀ m, e ≠ .loadError m) ∧ e ≠ .fileNotFound := by
  cases hfj : from_json (.obj fields) with
  | ok info =>
    exfalso
    have hkeys := from_json_ok_keys fields info hfj
    simp only [List.mem_cons, List.mem_singleton, List.not_mem_nil, or_false] at hmem
    rcases hmem with rfl | rfl | rfl | rfl <;>
      simp [hmiss] at hkeys
  | error e =>
    cases e with
    | keyError k => exact ⟨.keyError k, by simp [load, hfj], by simp, by simp⟩
    | apiTypeError m => exact ⟨.apiTypeError m, by simp [load, hfj], by simp, by simp⟩
    | typeError m => exact ⟨.typeError m, by simp [load, hfj], by simp, by simp⟩

theorem load_missing_key_fails_witness :
    ∃ e, load (some (.valid (.obj [("flamenco_version", sampleVersion.to_dict)]))) =
        .error e ∧ (∀ m, e ≠ .loadError m) ∧ e ≠ .fileNotFound :=
  load_missing_key_fails [("flamenco_version", sampleVersion.to_dict)]
    "shared_storage" (by simp) rfl

/-- C6 counterexample: with a cache file that parses as JSON but fails
key lookup (a malformed cache), `load_into_cache` does not absorb the
failure: the `KeyError` propagates to its caller instead of being turned
into a `None` result. -/
theorem load_into_cache_propagates_cex :
    (load_into_cache { cached := some sampleInfo, disk := some (.valid (.obj [])) }).1 =
      .error (.keyError "flamenco_version") :=
  rfl

/-- C6 (amended): `load_into_cache` absorbs a missing cache file, an
unreadable cache file and a cache file whose text is not valid JSON,
returning `None` with the in-memory cache cleared (and `load_cached`
behaves identically when no snapshot is in memory); but a cache file that
parses as JSON and then fails schema validation or key lookup makes the
exception propagate uncaught. -/
theorem load_into_cache_absorbs (st : CacheState)
    (h : st.disk = none ∨ st.disk = some .unreadable ∨ st.disk = some .invalid) :
    load_into_cache st = (.ok none, { st with cached := none }) ∧
    load_cached { st with cached := none } = (.ok none, { st with cached := none }) := by
  rcases h with h | h | h <;>
    simp [load_into_cache, load_cached, load, h]

theorem load_into_cache_absorbs_witness :
    load_into_cache stWarm = (.ok none, { stWarm with cached := none }) ∧
    load_cached { stWarm with cached := none } =
      (.ok none, { stWarm with cached := none }) :=
  load_into_cache_absorbs stWarm (Or.inl rfl)

/-- C9: `load_into_cache` clears the in-memory snapshot before attempting
the disk load, so whenever the disk load fails — in any of its failure
modes, including ones that propagate — the in-memory cache is absent
afterwards, even if a valid snapshot was cached in memory before the
call. -/
theorem load_into_cache_clears_memory_on_failure (st : CacheState)
    (h : ∃ e, load st.disk = .error e) :
    (load_into_cache st).2.cached = none := by
  obtain ⟨e, he⟩ := h
  cases e <;> simp [load_into_cache, he]

theorem load_into_cache_clears_memory_on_failure_witness :
    stWarm.cached = some sampleInfo ∧ (load_into_cache stWarm).2.cached = none :=
  ⟨rfl, load_into_cache_clears_memory_on_failure stWarm ⟨.fileNotFound, rfl⟩⟩

/-! ### API-client factory theorem -/

/-- C10: `flamenco_api_client` memoizes its result ignoring its argument
on later calls: after a first call with `url1` created the client (from
the empty singleton state), a second call with any `url2`, with no
intervening `discard_flamenco_data`, returns that same client, which is
configured for `url1` (with trailing slashes stripped), regardless of
`url2`. -/
theorem flamenco_api_client_memoizes (url1 url2 : String) (st : Option ApiClient) :
    (flamenco_api_client url2 (flamenco_api_client url1 st).2).1 =
      (flamenco_api_client url1 st).1 ∧
    (flamenco_api_client url1 none).1.host = rstripSlash url1 := by
  cases st <;> simp [flamenco_api_client]

end Flamenco
